import Mathlib

/-!
Verification of the contractor business-management API route handlers
(the `registerRoutes` function of the server routes module): invoice
payment recording, estimate → invoice conversion, estimate
accept/reject, project cancellation, client CRUD, and agent scheduling,
modelled as pure transitions on an explicit database state.

Modelling conventions:
* monetary amounts (decimal strings in the database) are rationals;
* nullable columns are `Option`;
* calendar instants are integers: days for invoice issue/due dates,
  milliseconds for appointment times (matching the `getTime()` + `n * 60000`
  arithmetic of the source);
* each route handler is a function from the database state and the request
  parameters to an HTTP status code, the new database state, and (where a
  claim needs it) the response body;
* random or clock inputs (invoice numbers, `new Date()`) are parameters.
-/

namespace Remodra

/-- A row of the `clients` table. -/
structure Client where
  id : ℤ
  contractorId : ℤ
  name : String
  deriving DecidableEq, Repr

/-- A row of the `projects` table. -/
structure Project where
  id : ℤ
  contractorId : ℤ
  clientId : Option ℤ
  title : String
  description : Option String
  status : String
  budget : Option ℚ
  startDate : Option ℤ
  notes : Option String
  position : Option ℤ
  deriving DecidableEq, Repr

/-- A row of the `estimates` table. -/
structure Estimate where
  id : ℤ
  contractorId : ℤ
  clientId : ℤ
  projectId : Option ℤ
  estimateNumber : String
  status : String
  subtotal : ℚ
  tax : Option ℚ
  discount : Option ℚ
  total : ℚ
  terms : Option String
  notes : Option String
  contractorSignature : Option String
  agentId : Option ℤ
  appointmentDate : Option ℤ
  appointmentDuration : Option ℤ
  estimateType : Option String
  deriving DecidableEq, Repr

/-- A row of the `estimate_items` table (the row id is never consulted by
the handlers verified here, so it is omitted). -/
structure EstimateItem where
  estimateId : ℤ
  description : String
  quantity : ℚ
  unitPrice : ℚ
  amount : ℚ
  notes : Option String
  deriving DecidableEq, Repr

/-- A row of the `invoices` table. -/
structure Invoice where
  id : ℤ
  contractorId : ℤ
  clientId : ℤ
  projectId : Option ℤ
  estimateId : Option ℤ
  invoiceNumber : String
  issueDate : ℤ
  dueDate : ℤ
  status : String
  subtotal : ℚ
  tax : Option ℚ
  discount : Option ℚ
  total : ℚ
  amountPaid : Option ℚ
  terms : Option String
  notes : Option String
  contractorSignature : Option String
  deriving DecidableEq, Repr

/-- A row of the `invoice_items` table (row id omitted, as for
`EstimateItem`). -/
structure InvoiceItem where
  invoiceId : ℤ
  description : String
  quantity : ℚ
  unitPrice : ℚ
  amount : ℚ
  notes : Option String
  deriving DecidableEq, Repr

/-- A row of the `events` table (calendar events). -/
structure EventRow where
  contractorId : ℤ
  clientId : Option ℤ
  title : String
  description : String
  startTime : ℤ
  endTime : ℤ
  type : String
  status : String
  location : String
  deriving DecidableEq, Repr

/-- A row of the `agents` table. -/
structure Agent where
  id : ℤ
  contractorId : ℤ
  firstName : String
  lastName : String
  deriving DecidableEq, Repr

/-- The database state seen by the route handlers.  `nextId` is the next
serial id the database will assign to a created row. -/
structure DB where
  nextId : ℤ
  clients : List Client
  projects : List Project
  estimates : List Estimate
  estimateItems : List EstimateItem
  invoices : List Invoice
  invoiceItems : List InvoiceItem
  events : List EventRow
  agents : List Agent
  deriving DecidableEq, Repr

/-! ### JavaScript value conventions used by the handlers -/

/-- The `amount` field of a payment request body, as the handler sees it:
absent (`undefined`/`null`), a JSON number, a nonempty string that
`parseFloat` parses to a number, or a nonempty string that `parseFloat`
cannot parse (`NaN`; the empty string also fails to parse, and is
additionally falsy, so it is rejected the same way). -/
inductive ReqAmount where
  | absent : ReqAmount
  | jnum : ℚ → ReqAmount
  | jstr : ℚ → ReqAmount
  | jstrBad : ReqAmount
  deriving DecidableEq, Repr

/-- JavaScript truthiness of the `amount` request field: `undefined`,
`null` and the number `0` are falsy; a nonempty string is truthy. -/
def truthyAmount : ReqAmount → Bool
  | ReqAmount.absent => false
  | ReqAmount.jnum q => decide (q ≠ 0)
  | ReqAmount.jstr _ => true
  | ReqAmount.jstrBad => true

/-- `parseFloat` on the `amount` request field, with `NaN` as `none`. -/
def parseAmount? : ReqAmount → Option ℚ
  | ReqAmount.absent => none
  | ReqAmount.jnum q => some q
  | ReqAmount.jstr q => some q
  | ReqAmount.jstrBad => none

/-- JavaScript truthiness of a nullable string (`x ? … : …`): `null`,
`undefined` and the empty string are falsy. -/
def jsStrTruthy : Option String → Bool
  | none => false
  | some s => !s.isEmpty

/-- The note-appending idiom of the handlers:
`x.notes ? x.notes + '\n\n' : ''` prefixed to a fresh line. -/
def appendNote (old : Option String) (line : String) : String :=
  (if jsStrTruthy old then old.getD "" ++ "\n\n" else "") ++ line

/-- The `(d || 60)` default applied to appointment durations: `null`,
`undefined` and `0` all give 60 (JavaScript `||` tests truthiness, so an
explicit 0 is also replaced). -/
def jsOr60 : Option ℤ → ℤ
  | none => 60
  | some d => if d = 0 then 60 else d

/-! ### Storage layer

Modelled from the spec: the storage module (`./storage`) and the
`verifyResourceOwnership` middleware are not among the sources; per the
spec the tables are plain relational records with foreign keys and every
protected read or write is scoped by the requesting contractor
(ownership checks), so `storage.getX(id, contractorId)` returns the row
only when both the id and the contractor match, updates patch exactly
the fields passed, and creates assign the next serial id. -/

/-- Row selector used by contractor-scoped reads and writes. -/
def clientMatch (id cid : ℤ) (c : Client) : Bool :=
  decide (c.id = id ∧ c.contractorId = cid)

/-- Row selector for projects. -/
def projectMatch (id cid : ℤ) (p : Project) : Bool :=
  decide (p.id = id ∧ p.contractorId = cid)

/-- Row selector for estimates. -/
def estimateMatch (id cid : ℤ) (e : Estimate) : Bool :=
  decide (e.id = id ∧ e.contractorId = cid)

/-- Row selector for invoices. -/
def invoiceMatch (id cid : ℤ) (i : Invoice) : Bool :=
  decide (i.id = id ∧ i.contractorId = cid)

/-- Row selector for agents. -/
def agentMatch (id cid : ℤ) (a : Agent) : Bool :=
  decide (a.id = id ∧ a.contractorId = cid)

/-- `storage.getClient(id, contractorId)`. -/
def getClient (db : DB) (id cid : ℤ) : Option Client :=
  db.clients.find? (clientMatch id cid)

/-- `storage.getProject(id, contractorId)`. -/
def getProject (db : DB) (id cid : ℤ) : Option Project :=
  db.projects.find? (projectMatch id cid)

/-- `storage.getEstimate(id, contractorId)`; also the shape of the
`db.query.estimates.findFirst` call of the assign-estimate handler,
which filters on `estimates.id` and `estimates.contractorId` directly
in the source. -/
def getEstimate (db : DB) (id cid : ℤ) : Option Estimate :=
  db.estimates.find? (estimateMatch id cid)

/-- `storage.getInvoice(id, contractorId)`. -/
def getInvoice (db : DB) (id cid : ℤ) : Option Invoice :=
  db.invoices.find? (invoiceMatch id cid)

/-- The `db.query.agents.findFirst` call of the assign-estimate handler
(filters on `agents.id` and `agents.contractorId` in the source). -/
def getAgent (db : DB) (id cid : ℤ) : Option Agent :=
  db.agents.find? (agentMatch id cid)

/-- `storage.getEstimateItems(estimateId, contractorId)` (ownership of
the parent estimate is checked by the callers). -/
def getEstimateItems (db : DB) (estimateId : ℤ) : List EstimateItem :=
  db.estimateItems.filter fun it => decide (it.estimateId = estimateId)

/-- `storage.getInvoiceItems(invoiceId, contractorId)`. -/
def getInvoiceItems (db : DB) (invoiceId : ℤ) : List InvoiceItem :=
  db.invoiceItems.filter fun it => decide (it.invoiceId = invoiceId)

/-- Fields a handler passes to `storage.updateProject`; `none` means the
field is not part of the update. -/
structure ProjectPatch where
  status : Option String := none
  notes : Option String := none
  position : Option ℤ := none
  deriving DecidableEq, Repr

/-- Apply a project patch to one row. -/
def applyProjectPatch (p : ProjectPatch) (x : Project) : Project :=
  { x with
    status := p.status.getD x.status
    notes := match p.notes with | some n => some n | none => x.notes
    position := match p.position with | some v => some v | none => x.position }

/-- `storage.updateProject(id, contractorId, patch)`. -/
def updateProject (db : DB) (id cid : ℤ) (p : ProjectPatch) : DB :=
  { db with projects := db.projects.map fun x =>
      if projectMatch id cid x then applyProjectPatch p x else x }

/-- Fields a handler passes to `storage.updateEstimate` (or to the
drizzle `update(estimates).set(…)` of the assign-estimate handler). -/
structure EstimatePatch where
  status : Option String := none
  notes : Option String := none
  agentId : Option ℤ := none
  appointmentDate : Option ℤ := none
  appointmentDuration : Option ℤ := none
  estimateType : Option String := none
  deriving DecidableEq, Repr

/-- Apply an estimate patch to one row. -/
def applyEstimatePatch (p : EstimatePatch) (x : Estimate) : Estimate :=
  { x with
    status := p.status.getD x.status
    notes := match p.notes with | some n => some n | none => x.notes
    agentId := match p.agentId with | some v => some v | none => x.agentId
    appointmentDate :=
      match p.appointmentDate with | some v => some v | none => x.appointmentDate
    appointmentDuration :=
      match p.appointmentDuration with | some v => some v | none => x.appointmentDuration
    estimateType :=
      match p.estimateType with | some v => some v | none => x.estimateType }

/-- `storage.updateEstimate(id, contractorId, patch)`. -/
def updateEstimate (db : DB) (id cid : ℤ) (p : EstimatePatch) : DB :=
  { db with estimates := db.estimates.map fun x =>
      if estimateMatch id cid x then applyEstimatePatch p x else x }

/-- The assign-estimate handler updates through drizzle with
`.where(eq(estimates.id, estimateId))` — no contractor filter — so it
patches every row with the given id. -/
def updateEstimateById (db : DB) (id : ℤ) (p : EstimatePatch) : DB :=
  { db with estimates := db.estimates.map fun x =>
      if decide (x.id = id) then applyEstimatePatch p x else x }

/-- Fields a handler passes to `storage.updateInvoice`. -/
structure InvoicePatch where
  amountPaid : Option ℚ := none
  status : Option String := none
  projectId : Option ℤ := none
  deriving DecidableEq, Repr

/-- Apply an invoice patch to one row. -/
def applyInvoicePatch (p : InvoicePatch) (x : Invoice) : Invoice :=
  { x with
    amountPaid := match p.amountPaid with | some v => some v | none => x.amountPaid
    status := p.status.getD x.status
    projectId := match p.projectId with | some v => some v | none => x.projectId }

/-- `storage.updateInvoice(id, contractorId, patch)`. -/
def updateInvoice (db : DB) (id cid : ℤ) (p : InvoicePatch) : DB :=
  { db with invoices := db.invoices.map fun x =>
      if invoiceMatch id cid x then applyInvoicePatch p x else x }

/-- `storage.createInvoice(data)`: the database assigns the next serial
id to the new row. -/
def createInvoice (db : DB) (data : Invoice) : DB × Invoice :=
  let inv := { data with id := db.nextId }
  ({ db with invoices := db.invoices ++ [inv], nextId := db.nextId + 1 }, inv)

/-- `storage.createInvoiceItem(data)`. -/
def createInvoiceItem (db : DB) (item : InvoiceItem) : DB :=
  { db with invoiceItems := db.invoiceItems ++ [item] }

/-- `storage.createSimpleProject(data)`. -/
def createSimpleProject (db : DB) (data : Project) : DB × Project :=
  let proj := { data with id := db.nextId }
  ({ db with projects := db.projects ++ [proj], nextId := db.nextId + 1 }, proj)

/-- `storage.createClient(data)`. -/
def createClient (db : DB) (data : Client) : DB × Client :=
  let c := { data with id := db.nextId }
  ({ db with clients := db.clients ++ [c], nextId := db.nextId + 1 }, c)

/-- `db.insert(events).values(data)` of the assign-estimate handler. -/
def createEvent (db : DB) (ev : EventRow) : DB :=
  { db with events := db.events ++ [ev] }

/-- Freshness of the serial-id counter: every row id already present is
below `nextId`, so a newly created row never collides with an existing
one.  (Any state reachable from an empty database satisfies this.) -/
def fresh (db : DB) : Bool :=
  db.invoices.all (fun i => decide (i.id < db.nextId)) &&
  db.projects.all (fun p => decide (p.id < db.nextId)) &&
  db.invoiceItems.all (fun it => decide (it.invoiceId < db.nextId))

/-! ### Route handlers -/

/-- `POST /api/protected/invoices/:id/payment` (the invoice payment
handler).  `now` is the clock reading used for the start date of an
auto-created project.  Validation mirrors the source:
`!amount || isNaN(parseFloat(amount))` rejects with 400, a missing (or
foreign) invoice gives 404, and a payment pushing `amountPaid` above the
total gives 400; otherwise the invoice is updated and, when the new
amount paid is positive, a linked pending project is promoted to
`in_progress`, or — when no project is linked and the client exists — a
new pending project is created and linked. -/
def recordPayment (db : DB) (cid invoiceId : ℤ) (amount : ReqAmount) (now : ℤ) :
    ℕ × DB :=
  if truthyAmount amount = false ∨ parseAmount? amount = none then
    (400, db)
  else
    match getInvoice db invoiceId cid with
    | none => (404, db)
    | some invoice =>
      let currentAmountPaid := invoice.amountPaid.getD 0
      let paymentAmount := (parseAmount? amount).getD 0
      let totalAmount := invoice.total
      let newAmountPaid := currentAmountPaid + paymentAmount
      if newAmountPaid > totalAmount then
        (400, db)
      else
        let newInvoiceStatus :=
          if newAmountPaid ≥ totalAmount then ("paid" : String)
          else if newAmountPaid > 0 then ("partially_paid" : String)
          else invoice.status
        let db1 := updateInvoice db invoiceId cid
          { amountPaid := some newAmountPaid, status := some newInvoiceStatus }
        if newAmountPaid > 0 then
          match invoice.projectId with
          | some pid =>
            match getProject db1 pid cid with
            | some currentProject =>
              if currentProject.status = "pending" then
                (200, updateProject db1 pid cid { status := some ("in_progress") })
              else
                (200, db1)
            | none => (200, db1)
          | none =>
            match getClient db1 invoice.clientId cid with
            | some _ =>
              let created := createSimpleProject db1
                { id := 0
                  contractorId := cid
                  clientId := some invoice.clientId
                  title := "Project for Invoice #" ++ invoice.invoiceNumber
                  description := some ("Automatically created project from invoice #" ++
                    invoice.invoiceNumber ++ " after receiving payment")
                  status := "pending"
                  budget := some invoice.total
                  startDate := some now
                  notes := some ("Project created automatically when invoice payment was received")
                  position := none }
              (200, updateInvoice created.1 invoiceId cid { projectId := some created.2.id })
            | none => (200, db1)
        else
          (200, db1)

/-- `POST /api/protected/estimates/:id/convert-to-invoice`.  `now` is the
issue date (a day count: the source sets the due date with
`setDate(getDate() + 15)`, i.e. fifteen calendar days later), and
`invoiceNumber` the randomly generated `OT-…` number. -/
def convertToInvoice (db : DB) (cid estimateId : ℤ) (now : ℤ)
    (invoiceNumber : String) : ℕ × DB :=
  match getEstimate db estimateId cid with
  | none => (404, db)
  | some estimate =>
    if estimate.status ≠ "accepted" then
      (400, db)
    else
      let estimateItems := getEstimateItems db estimateId
      let invoiceData : Invoice :=
        { id := 0
          contractorId := cid
          clientId := estimate.clientId
          projectId := estimate.projectId
          estimateId := some estimate.id
          invoiceNumber := invoiceNumber
          issueDate := now
          dueDate := now + 15
          status := "pending"
          subtotal := estimate.subtotal
          tax := estimate.tax
          discount := estimate.discount
          total := estimate.total
          amountPaid := some 0
          terms := estimate.terms
          notes := estimate.notes
          contractorSignature := estimate.contractorSignature }
      let created := createInvoice db invoiceData
      let db2 :=
        if estimateItems.length > 0 then
          estimateItems.foldl
            (fun d item => createInvoiceItem d
              { invoiceId := created.2.id
                description := item.description
                quantity := item.quantity
                unitPrice := item.unitPrice
                amount := item.amount
                notes := item.notes })
            created.1
        else
          created.1
      let db3 := updateEstimate db2 estimateId cid
        { status := some ("converted")
          notes := some (appendNote estimate.notes ("Converted to Invoice #" ++ invoiceNumber)) }
      (201, db3)

/-- `POST /api/protected/projects/:id/cancel`.  `reqNotes` is
`req.body.notes`. -/
def cancelProject (db : DB) (cid projectId : ℤ) (reqNotes : Option String) :
    ℕ × DB :=
  match getProject db projectId cid with
  | none => (404, db)
  | some existingProject =>
    if existingProject.status = "cancelled" then
      (400, db)
    else
      (200, updateProject db projectId cid
        { status := some ("cancelled")
          notes := some (if jsStrTruthy reqNotes then
              appendNote existingProject.notes ("Cancelled: " ++ reqNotes.getD "")
            else
              appendNote existingProject.notes ("Project cancelled")) })

/-- `POST /api/protected/estimates/:id/accept`. -/
def acceptEstimate (db : DB) (cid estimateId : ℤ) (reqNotes : Option String) :
    ℕ × DB :=
  match getEstimate db estimateId cid with
  | none => (404, db)
  | some existingEstimate =>
    if existingEstimate.status ≠ "draft" ∧ existingEstimate.status ≠ "sent" then
      (400, db)
    else
      (200, updateEstimate db estimateId cid
        { status := some ("accepted")
          notes := some (if jsStrTruthy reqNotes then
              appendNote existingEstimate.notes ("Accepted: " ++ reqNotes.getD "")
            else
              appendNote existingEstimate.notes ("Estimate accepted")) })

/-- `POST /api/protected/estimates/:id/reject`: the status check comes
first, then the non-empty rejection reason is required. -/
def rejectEstimate (db : DB) (cid estimateId : ℤ) (reqNotes : Option String) :
    ℕ × DB :=
  match getEstimate db estimateId cid with
  | none => (404, db)
  | some existingEstimate =>
    if existingEstimate.status ≠ "draft" ∧ existingEstimate.status ≠ "sent" then
      (400, db)
    else if jsStrTruthy reqNotes = false then
      (400, db)
    else
      (200, updateEstimate db estimateId cid
        { status := some ("rejected")
          notes := some (appendNote existingEstimate.notes
            ("Rejected: " ++ reqNotes.getD "")) })

/-- Result of `POST /api/protected/agents/assign-estimate`: the status
code, the new database state, and the response body (the updated
estimate returned by the drizzle update, when the assignment went
through). -/
structure AssignResult where
  status : ℕ
  db : DB
  body : Option Estimate
  deriving DecidableEq, Repr

/-- `POST /api/protected/agents/assign-estimate`.  `appointmentDate` is
in milliseconds; durations are minutes, converted with `* 60000` as in
the source.  `eventInsertFails` models the try/catch around the calendar
event insertion: a failure there is swallowed, and the handler still
responds with the updated estimate. -/
def assignEstimate (db : DB) (cid : ℤ) (estimateId agentId : ℤ)
    (appointmentDate : ℤ) (appointmentDuration : Option ℤ)
    (eventInsertFails : Bool) : AssignResult :=
  match getEstimate db estimateId cid with
  | none => ⟨404, db, none⟩
  | some estimate =>
    match getAgent db agentId cid with
    | none => ⟨404, db, none⟩
    | some agent =>
      let appointmentDateTime := appointmentDate
      let appointmentEndTime := appointmentDateTime + jsOr60 appointmentDuration * 60000
      let conflictingEstimates := db.estimates.filter fun e =>
        decide (e.agentId = some agentId ∧ e.contractorId = cid ∧
          e.id ≠ estimateId ∧ e.appointmentDate ≠ none)
      let hasTimeConflict := conflictingEstimates.any fun existing =>
        match existing.appointmentDate with
        | none => false
        | some existingStart =>
          decide (appointmentDateTime < existingStart + jsOr60 existing.appointmentDuration * 60000 ∧
            appointmentEndTime > existingStart)
      if hasTimeConflict then
        ⟨409, db, none⟩
      else
        let db1 := updateEstimateById db estimateId
          { agentId := some agentId
            appointmentDate := some appointmentDateTime
            appointmentDuration := some (jsOr60 appointmentDuration)
            estimateType := some ("agent") }
        let updatedEstimate := db1.estimates.find? fun e => decide (e.id = estimateId)
        let db2 :=
          if eventInsertFails then db1
          else createEvent db1
            { contractorId := cid
              clientId := some estimate.clientId
              title := "Agent Estimate - " ++ estimate.estimateNumber
              description := "Estimate appointment assigned to " ++
                agent.firstName ++ " " ++ agent.lastName
              startTime := appointmentDateTime
              endTime := appointmentEndTime
              type := "estimate"
              status := "confirmed"
              location := "" }
        ⟨200, db2, updatedEstimate⟩

/-- `GET /api/protected/clients/:id` (read-only, so only the status code
and the body). -/
def getClientRoute (db : DB) (cid id : ℤ) : ℕ × Option Client :=
  match getClient db id cid with
  | none => (404, none)
  | some client => (200, some client)

/-- Modelled from the spec: the outcome of validating a request body
against a shared-schema Zod insert schema (the schema module is not
among the sources); `zodError` carries the validation error details the
handler returns in the 400 response body. -/
inductive ParseOutcome (α : Type) where
  | ok : α → ParseOutcome α
  | zodError : List String → ParseOutcome α
  deriving DecidableEq, Repr

/-- Result of `POST /api/protected/clients`: status code, new database
state, and the Zod error details when validation failed. -/
structure CreateClientResult where
  status : ℕ
  db : DB
  errors : Option (List String)
  deriving DecidableEq, Repr

/-- `POST /api/protected/clients`.  `parsed` is the outcome of
`clientInsertSchema.parse({...req.body, contractorId: req.user.id})`;
`createFails` models `storage.createClient` throwing (any non-Zod error
is answered with 500). -/
def createClientRoute (db : DB) (parsed : ParseOutcome Client)
    (createFails : Bool) : CreateClientResult :=
  match parsed with
  | ParseOutcome.zodError errs => ⟨400, db, some errs⟩
  | ParseOutcome.ok validatedData =>
    if createFails then ⟨500, db, none⟩
    else ⟨201, (createClient db validatedData).1, none⟩

/-! ### List-level lemmas about scoped reads after writes -/

/-- A `find?` after an update that patches exactly the matching rows,
where the patch does not change whether a row matches: the found row is
the patch of the row found before. -/
theorem find?_update {α : Type} (q : α → Bool) (f : α → α)
    (hf : ∀ a, q (f a) = q a) :
    ∀ l : List α, (l.map fun a => if q a then f a else a).find? q = (l.find? q).map f := by
  intro l
  induction l with
  | nil => rfl
  | cons a t ih =>
    by_cases h : q a = true
    · rw [List.map_cons, if_pos h, List.find?_cons_of_pos _ ((hf a).trans h),
        List.find?_cons_of_pos _ h, Option.map_some']
    · rw [List.map_cons, if_neg h, List.find?_cons_of_neg _ h,
        List.find?_cons_of_neg _ h, ih]

/-- `find?` over an appended list when the head part has no match. -/
theorem find?_append_of_none {α : Type} (q : α → Bool) (l₁ l₂ : List α)
    (h : l₁.find? q = none) : (l₁ ++ l₂).find? q = l₂.find? q := by
  induction l₁ with
  | nil => rfl
  | cons a t ih =>
    by_cases hqa : q a = true
    · rw [List.find?_cons_of_pos _ hqa] at h
      exact absurd h (by simp)
    · rw [List.find?_cons_of_neg _ hqa] at h
      rw [List.cons_append, List.find?_cons_of_neg _ hqa, ih h]

/-- Invoice patches never touch the id or the contractor. -/
theorem invoiceMatch_applyInvoicePatch (id cid : ℤ) (p : InvoicePatch)
    (x : Invoice) : invoiceMatch id cid (applyInvoicePatch p x) = invoiceMatch id cid x := by
  simp [invoiceMatch, applyInvoicePatch]

/-- Project patches never touch the id or the contractor. -/
theorem projectMatch_applyProjectPatch (id cid : ℤ) (p : ProjectPatch)
    (x : Project) : projectMatch id cid (applyProjectPatch p x) = projectMatch id cid x := by
  simp [projectMatch, applyProjectPatch]

/-- Estimate patches never touch the id or the contractor. -/
theorem estimateMatch_applyEstimatePatch (id cid : ℤ) (p : EstimatePatch)
    (x : Estimate) : estimateMatch id cid (applyEstimatePatch p x) = estimateMatch id cid x := by
  simp [estimateMatch, applyEstimatePatch]

/-- Reading the invoice just written: the scoped read returns the patched
row. -/
theorem getInvoice_updateInvoice (db : DB) (id cid : ℤ) (p : InvoicePatch) :
    getInvoice (updateInvoice db id cid p) id cid
      = (getInvoice db id cid).map (applyInvoicePatch p) := by
  unfold getInvoice updateInvoice
  exact find?_update _ _ (invoiceMatch_applyInvoicePatch id cid p) db.invoices

/-- Reading the project just written. -/
theorem getProject_updateProject (db : DB) (id cid : ℤ) (p : ProjectPatch) :
    getProject (updateProject db id cid p) id cid
      = (getProject db id cid).map (applyProjectPatch p) := by
  unfold getProject updateProject
  exact find?_update _ _ (projectMatch_applyProjectPatch id cid p) db.projects

/-- Reading the estimate just written. -/
theorem getEstimate_updateEstimate (db : DB) (id cid : ℤ) (p : EstimatePatch) :
    getEstimate (updateEstimate db id cid p) id cid
      = (getEstimate db id cid).map (applyEstimatePatch p) := by
  unfold getEstimate updateEstimate
  exact find?_update _ _ (estimateMatch_applyEstimatePatch id cid p) db.estimates

/-- Project writes do not change invoice reads. -/
theorem getInvoice_updateProject (db : DB) (pid cid : ℤ) (p : ProjectPatch)
    (iid icid : ℤ) :
    getInvoice (updateProject db pid cid p) iid icid = getInvoice db iid icid := rfl

/-- Creating a project does not change invoice reads. -/
theorem getInvoice_createSimpleProject (db : DB) (data : Project) (iid icid : ℤ) :
    getInvoice (createSimpleProject db data).1 iid icid = getInvoice db iid icid := rfl

/-! ### The invoice payment route: effect on the invoice row (C1, C5) -/

/-- Core behavior of the payment route on the invoice row: under a
truthy, parseable amount and a sum within the total, the route answers
200 and rewrites the invoice with the summed `amountPaid` and the status
chosen by the source's conditional chain. -/
theorem recordPayment_invoice_core
    (db : DB) (cid iid now : ℤ) (amount : ReqAmount) (inv : Invoice) (q : ℚ)
    (hinv : getInvoice db iid cid = some inv)
    (htruthy : truthyAmount amount = true)
    (hparse : parseAmount? amount = some q)
    (hle : inv.amountPaid.getD 0 + q ≤ inv.total) :
    (recordPayment db cid iid amount now).1 = 200 ∧
    ∃ inv', getInvoice (recordPayment db cid iid amount now).2 iid cid = some inv' ∧
      inv'.amountPaid = some (inv.amountPaid.getD 0 + q) ∧
      inv'.status = (if inv.amountPaid.getD 0 + q ≥ inv.total then ("paid" : String)
        else if inv.amountPaid.getD 0 + q > 0 then ("partially_paid" : String)
        else inv.status) := by
  have hval : ¬ (truthyAmount amount = false ∨ parseAmount? amount = none) := by
    simp [htruthy, hparse]
  unfold recordPayment
  rw [if_neg hval, hinv]
  dsimp only
  rw [hparse]
  dsimp only [Option.getD_some]
  rw [if_neg (not_lt.mpr hle)]
  set S := inv.amountPaid.getD 0 + q with hS
  set pch : InvoicePatch :=
    { amountPaid := some S,
      status := some (if S ≥ inv.total then ("paid" : String)
        else if S > 0 then ("partially_paid" : String) else inv.status) } with hpch
  have hbase : getInvoice (updateInvoice db iid cid pch) iid cid
      = some (applyInvoicePatch pch inv) := by
    rw [getInvoice_updateInvoice, hinv, Option.map_some']
  by_cases hpos : S > 0
  · rw [if_pos hpos]
    cases hpid : inv.projectId with
    | some pid =>
      dsimp only
      cases hgp : getProject (updateInvoice db iid cid pch) pid cid with
      | some currentProject =>
        dsimp only
        by_cases hst : currentProject.status = "pending"
        · rw [if_pos hst]
          exact ⟨rfl, applyInvoicePatch pch inv,
            by rw [getInvoice_updateProject]; exact hbase,
            by simp [applyInvoicePatch, hpch], by simp [applyInvoicePatch, hpch]⟩
        · rw [if_neg hst]
          exact ⟨rfl, applyInvoicePatch pch inv, hbase,
            by simp [applyInvoicePatch, hpch], by simp [applyInvoicePatch, hpch]⟩
      | none =>
        dsimp only
        exact ⟨rfl, applyInvoicePatch pch inv, hbase,
          by simp [applyInvoicePatch, hpch], by simp [applyInvoicePatch, hpch]⟩
    | none =>
      dsimp only
      cases hgc : getClient (updateInvoice db iid cid pch) inv.clientId cid with
      | some c =>
        dsimp only
        refine ⟨rfl, ?_⟩
        rw [getInvoice_updateInvoice, getInvoice_createSimpleProject, hbase,
          Option.map_some']
        exact ⟨_, rfl, by simp [applyInvoicePatch, hpch],
          by simp [applyInvoicePatch, hpch]⟩
      | none =>
        dsimp only
        exact ⟨rfl, applyInvoicePatch pch inv, hbase,
          by simp [applyInvoicePatch, hpch], by simp [applyInvoicePatch, hpch]⟩
  · rw [if_neg hpos]
    exact ⟨rfl, applyInvoicePatch pch inv, hbase,
      by simp [applyInvoicePatch, hpch], by simp [applyInvoicePatch, hpch]⟩

/-- **C1** (amended).  A payment with numeric amount `q` accepted by the
route, on an invoice with paid amount `P` and total `T` such that
`P + q ≤ T`, answers 200 and updates `amountPaid` to `P + q`; the status
is set to `paid` when `P + q ≥ T`, to `partially_paid` when
`0 < P + q < T`, and is left at its previous value when `P + q = 0 < T`
(amendment: when `P + q = 0 = T` the first branch of the source's
conditional applies, and the status becomes `paid`). -/
theorem C1_payment_updates_amount_and_status
    (db : DB) (cid iid now : ℤ) (amount : ReqAmount) (inv : Invoice) (q : ℚ)
    (hinv : getInvoice db iid cid = some inv)
    (htruthy : truthyAmount amount = true)
    (hparse : parseAmount? amount = some q)
    (hle : inv.amountPaid.getD 0 + q ≤ inv.total) :
    (recordPayment db cid iid amount now).1 = 200 ∧
    ∃ inv', getInvoice (recordPayment db cid iid amount now).2 iid cid = some inv' ∧
      inv'.amountPaid = some (inv.amountPaid.getD 0 + q) ∧
      (inv.amountPaid.getD 0 + q ≥ inv.total → inv'.status = "paid") ∧
      (0 < inv.amountPaid.getD 0 + q ∧ inv.amountPaid.getD 0 + q < inv.total →
        inv'.status = "partially_paid") ∧
      (inv.amountPaid.getD 0 + q = 0 ∧ 0 < inv.total → inv'.status = inv.status) := by
  obtain ⟨h200, inv', hfind, hamt, hstat⟩ :=
    recordPayment_invoice_core db cid iid now amount inv q hinv htruthy hparse hle
  refine ⟨h200, inv', hfind, hamt, ?_, ?_, ?_⟩
  · intro hge
    rw [hstat, if_pos hge]
  · rintro ⟨h1, h2⟩
    rw [hstat, if_neg (not_le.mpr h2), if_pos h1]
  · rintro ⟨h0, hT⟩
    rw [hstat, if_neg (fun hge => absurd (h0 ▸ hge) (not_le.mpr hT)),
      if_neg (by rw [h0]; exact lt_irrefl 0)]

/-- A pending invoice for 100 dollars with nothing paid yet, used to
exercise the payment route. -/
def invC1w : Invoice :=
  { id := 1, contractorId := 1, clientId := 1, projectId := some 5,
    estimateId := none, invoiceNumber := "INV-1", issueDate := 0, dueDate := 15,
    status := "pending", subtotal := 100, tax := none, discount := none,
    total := 100, amountPaid := some 0, terms := none, notes := none,
    contractorSignature := none }

/-- A one-invoice database for the C1 witness. -/
def dbC1w : DB :=
  { nextId := 10, clients := [], projects := [], estimates := [],
    estimateItems := [], invoices := [invC1w], invoiceItems := [],
    events := [], agents := [] }

/-- Witness for C1: a 50-dollar payment on the 100-dollar pending
invoice is accepted and moves it to `partially_paid`. -/
theorem C1_payment_updates_amount_and_status_witness :
    getInvoice dbC1w 1 1 = some invC1w ∧
    truthyAmount (ReqAmount.jnum 50) = true ∧
    parseAmount? (ReqAmount.jnum 50) = some 50 ∧
    invC1w.amountPaid.getD 0 + 50 ≤ invC1w.total ∧
    ((recordPayment dbC1w 1 1 (ReqAmount.jnum 50) 0).1 = 200 ∧
    ∃ inv', getInvoice (recordPayment dbC1w 1 1 (ReqAmount.jnum 50) 0).2 1 1 = some inv' ∧
      inv'.amountPaid = some (invC1w.amountPaid.getD 0 + 50) ∧
      (invC1w.amountPaid.getD 0 + 50 ≥ invC1w.total → inv'.status = "paid") ∧
      (0 < invC1w.amountPaid.getD 0 + 50 ∧ invC1w.amountPaid.getD 0 + 50 < invC1w.total →
        inv'.status = "partially_paid") ∧
      (invC1w.amountPaid.getD 0 + 50 = 0 ∧ 0 < invC1w.total → inv'.status = invC1w.status)) :=
  ⟨by simp [getInvoice, dbC1w, invC1w, invoiceMatch],
   by simp [truthyAmount],
   rfl,
   by simp [invC1w]; norm_num,
   C1_payment_updates_amount_and_status dbC1w 1 1 0 (ReqAmount.jnum 50) invC1w 50
     (by simp [getInvoice, dbC1w, invC1w, invoiceMatch])
     (by simp [truthyAmount]) rfl (by simp [invC1w]; norm_num)⟩

/-- A pending invoice whose total is 0 and whose paid amount is 0. -/
def invC1x : Invoice :=
  { id := 1, contractorId := 1, clientId := 1, projectId := some 5,
    estimateId := none, invoiceNumber := "INV-1", issueDate := 0, dueDate := 15,
    status := "pending", subtotal := 0, tax := none, discount := none,
    total := 0, amountPaid := some 0, terms := none, notes := none,
    contractorSignature := none }

/-- A one-invoice database for the C1 counterexample. -/
def dbC1x : DB :=
  { nextId := 10, clients := [], projects := [], estimates := [],
    estimateItems := [], invoices := [invC1x], invoiceItems := [],
    events := [], agents := [] }

/-- Counterexample to C1 as stated: paying the string `"0"` (truthy, and
parsed to the number 0) on a pending invoice whose total is 0 satisfies
every premise of the claim with `P + a = 0`, yet the status is changed
to `paid` rather than left at `pending`, because the source tests
`newAmountPaid >= totalAmount` first. -/
theorem C1_counterexample :
    truthyAmount (ReqAmount.jstr 0) = true ∧
    parseAmount? (ReqAmount.jstr 0) = some 0 ∧
    getInvoice dbC1x 1 1 = some invC1x ∧
    invC1x.amountPaid.getD 0 + 0 = 0 ∧
    invC1x.amountPaid.getD 0 + 0 ≤ invC1x.total ∧
    invC1x.status = "pending" ∧
    (getInvoice (recordPayment dbC1x 1 1 (ReqAmount.jstr 0) 0).2 1 1).map Invoice.status
      = some "paid" := by
  refine ⟨rfl, rfl, by simp [getInvoice, dbC1x, invC1x, invoiceMatch],
    by simp [invC1x], by simp [invC1x], rfl, ?_⟩
  simp [recordPayment, getInvoice, dbC1x, invC1x, invoiceMatch, truthyAmount,
    parseAmount?, updateInvoice, applyInvoicePatch, getProject, projectMatch]

/-- **C5** (amended).  The payment route fails exactly when the amount is
JavaScript-falsy or unparseable (400: absent, the number 0, the empty
string, or a string `parseFloat` cannot read), when the invoice is
missing for the requesting contractor (404), or when the current paid
amount plus the payment exceeds the total (400); every failure leaves
the database unchanged, and no other outcome than 200/400/404 exists —
in particular the invoice's current status never causes rejection, and
negative amounts and the nonempty string `"0"` are accepted.
(Amendment: the claim said a present numeric amount of zero is accepted;
the handler's `!amount` test also rejects the number 0.) -/
theorem C5_payment_failure_modes
    (db : DB) (cid iid now : ℤ) (amount : ReqAmount) :
    (((recordPayment db cid iid amount now).1 = 400 ∨
        (recordPayment db cid iid amount now).1 = 404) →
      (recordPayment db cid iid amount now).2 = db) ∧
    ((recordPayment db cid iid amount now).1 = 404 ↔
      ¬(truthyAmount amount = false ∨ parseAmount? amount = none) ∧
        getInvoice db iid cid = none) ∧
    ((recordPayment db cid iid amount now).1 = 400 ↔
      (truthyAmount amount = false ∨ parseAmount? amount = none) ∨
        ∃ inv q, getInvoice db iid cid = some inv ∧ parseAmount? amount = some q ∧
          truthyAmount amount = true ∧ inv.amountPaid.getD 0 + q > inv.total) ∧
    ((recordPayment db cid iid amount now).1 = 200 ∨
      (recordPayment db cid iid amount now).1 = 400 ∨
      (recordPayment db cid iid amount now).1 = 404) := by
  by_cases hv : truthyAmount amount = false ∨ parseAmount? amount = none
  · have hr : recordPayment db cid iid amount now = (400, db) := by
      unfold recordPayment
      rw [if_pos hv]
    rw [hr]
    refine ⟨fun _ => rfl, by simp [hv], ?_, by simp⟩
    exact iff_of_true rfl (Or.inl hv)
  · obtain ⟨q, hparse⟩ : ∃ q, parseAmount? amount = some q := by
      rcases h : parseAmount? amount with _ | q
      · exact absurd (Or.inr h) hv
      · exact ⟨q, rfl⟩
    have htruthy : truthyAmount amount = true := by
      rcases h : truthyAmount amount
      · exact absurd (Or.inl h) hv
      · rfl
    cases hi : getInvoice db iid cid with
    | none =>
      have hr : recordPayment db cid iid amount now = (404, db) := by
        unfold recordPayment
        rw [if_neg hv, hi]
      rw [hr]
      refine ⟨fun _ => rfl, by simp [hv, hi], ?_, by simp⟩
      constructor
      · intro h
        exact absurd h (by norm_num)
      · rintro (h | ⟨inv, q', hinv, _, _, _⟩)
        · exact absurd h hv
        · exact absurd hinv (by simp)
    | some inv =>
      by_cases hex : inv.amountPaid.getD 0 + q > inv.total
      · have hr : recordPayment db cid iid amount now = (400, db) := by
          unfold recordPayment
          rw [if_neg hv, hi]
          dsimp only
          rw [hparse]
          dsimp only [Option.getD_some]
          rw [if_pos hex]
        rw [hr]
        refine ⟨fun _ => rfl, by simp [hv, hi], ?_, by simp⟩
        exact iff_of_true rfl (Or.inr ⟨inv, q, rfl, hparse, htruthy, hex⟩)
      · have h200 := (recordPayment_invoice_core db cid iid now amount inv q hi
          htruthy hparse (not_lt.mp hex)).1
        rw [h200]
        refine ⟨?_, ?_, ?_, Or.inl rfl⟩
        · rintro (h | h) <;> exact absurd h (by norm_num)
        · constructor
          · intro h
            exact absurd h (by norm_num)
          · rintro ⟨_, hnone⟩
            exact absurd hnone (by simp)
        · constructor
          · intro h
            exact absurd h (by norm_num)
          · rintro (h | ⟨inv', q', hinv', hparse', _, hex'⟩)
            · exact absurd h hv
            · rw [hparse] at hparse'
              obtain rfl : inv = inv' := by injection hinv'
              obtain rfl : q = q' := by injection hparse'
              exact absurd hex' hex

/-- A pending ten-dollar invoice with nothing paid, for the C5
counterexample. -/
def invC5x : Invoice :=
  { id := 1, contractorId := 1, clientId := 1, projectId := some 5,
    estimateId := none, invoiceNumber := "INV-1", issueDate := 0, dueDate := 15,
    status := "pending", subtotal := 10, tax := none, discount := none,
    total := 10, amountPaid := some 0, terms := none, notes := none,
    contractorSignature := none }

/-- A one-invoice database for the C5 counterexample. -/
def dbC5x : DB :=
  { nextId := 10, clients := [], projects := [], estimates := [],
    estimateItems := [], invoices := [invC5x], invoiceItems := [],
    events := [], agents := [] }

/-- Counterexample to C5 as stated: the JSON number 0 is a present,
numeric amount, the invoice exists, and the sum stays within the total,
yet the handler rejects with 400, because `!amount` is true for the
number 0 — a zero amount is therefore not always accepted. -/
theorem C5_counterexample :
    parseAmount? (ReqAmount.jnum 0) = some 0 ∧
    getInvoice dbC5x 1 1 = some invC5x ∧
    invC5x.amountPaid.getD 0 + 0 ≤ invC5x.total ∧
    recordPayment dbC5x 1 1 (ReqAmount.jnum 0) 0 = (400, dbC5x) := by
  refine ⟨rfl, by simp [getInvoice, dbC5x, invC5x, invoiceMatch], by simp [invC5x], ?_⟩
  unfold recordPayment
  rw [if_pos]
  exact Or.inl (by simp [truthyAmount])

/-! ### The invoice payment route: effect on the linked project (C4) -/

/-- Invoice writes do not change project reads. -/
theorem getProject_updateInvoice (db : DB) (iid icid : ℤ) (p : InvoicePatch)
    (pid cid : ℤ) :
    getProject (updateInvoice db iid icid p) pid cid = getProject db pid cid := rfl

/-- Invoice writes do not change client reads. -/
theorem getClient_updateInvoice (db : DB) (iid icid : ℤ) (p : InvoicePatch)
    (id cid : ℤ) :
    getClient (updateInvoice db iid icid p) id cid = getClient db id cid := rfl

/-- With a fresh id counter, no project row carries the id about to be
assigned. -/
theorem getProject_nextId_none (db : DB) (cid : ℤ) (hf : fresh db = true) :
    getProject db db.nextId cid = none := by
  unfold getProject
  rw [List.find?_eq_none]
  intro p hp
  simp only [projectMatch, decide_eq_true_eq, not_and]
  intro hid _
  simp only [fresh, Bool.and_eq_true, List.all_eq_true] at hf
  have := hf.1.2 p hp
  rw [hid] at this
  simp at this

/-- Patching an invoice does not change any row id, so freshness of the
id counter is preserved. -/
theorem fresh_updateInvoice (db : DB) (id cid : ℤ) (p : InvoicePatch) :
    fresh (updateInvoice db id cid p) = fresh db := by
  simp only [fresh, updateInvoice, List.all_map]
  have h1 : ∀ x : Invoice, ((fun i => decide (i.id < db.nextId)) ∘ fun x =>
      if invoiceMatch id cid x = true then applyInvoicePatch p x else x) x
      = (fun i : Invoice => decide (i.id < db.nextId)) x := by
    intro x
    by_cases h : invoiceMatch id cid x = true
    · simp only [Function.comp_apply, if_pos h]
      simp [applyInvoicePatch]
    · simp only [Function.comp_apply, if_neg h]
  rw [funext h1]

/-- **C4**.  When an accepted payment leaves `amountPaid` positive: a
linked project read in status `pending` is moved to `in_progress`; a
linked project in any other status is left unchanged; and when the
invoice has no linked project but its client exists, a new project with
status `pending` and budget equal to the invoice total is created under
the database's next id, and the invoice's `projectId` is set to it. -/
theorem C4_payment_project_side
    (db : DB) (cid iid now : ℤ) (amount : ReqAmount) (inv : Invoice) (q : ℚ)
    (hinv : getInvoice db iid cid = some inv)
    (htruthy : truthyAmount amount = true)
    (hparse : parseAmount? amount = some q)
    (hle : inv.amountPaid.getD 0 + q ≤ inv.total)
    (hpos : 0 < inv.amountPaid.getD 0 + q) :
    (∀ pid proj, inv.projectId = some pid → getProject db pid cid = some proj →
      proj.status = "pending" →
        ∃ proj', getProject (recordPayment db cid iid amount now).2 pid cid = some proj' ∧
          proj'.status = "in_progress") ∧
    (∀ pid proj, inv.projectId = some pid → getProject db pid cid = some proj →
      proj.status ≠ "pending" →
        getProject (recordPayment db cid iid amount now).2 pid cid = some proj) ∧
    (inv.projectId = none → ∀ c, getClient db inv.clientId cid = some c →
      fresh db = true →
        ∃ proj', getProject (recordPayment db cid iid amount now).2 db.nextId cid = some proj' ∧
          proj'.status = "pending" ∧ proj'.budget = some inv.total ∧
          (getInvoice (recordPayment db cid iid amount now).2 iid cid).map Invoice.projectId
            = some (some db.nextId)) := by
  have hval : ¬ (truthyAmount amount = false ∨ parseAmount? amount = none) := by
    simp [htruthy, hparse]
  unfold recordPayment
  rw [if_neg hval, hinv]
  dsimp only
  rw [hparse]
  dsimp only [Option.getD_some]
  rw [if_neg (not_lt.mpr hle), if_pos hpos]
  refine ⟨?_, ?_, ?_⟩
  · intro pid proj hpid hproj hst
    rw [hpid]
    dsimp only
    rw [getProject_updateInvoice, hproj]
    dsimp only
    rw [if_pos hst]
    dsimp only
    rw [getProject_updateProject, getProject_updateInvoice, hproj, Option.map_some']
    exact ⟨_, rfl, by simp [applyProjectPatch]⟩
  · intro pid proj hpid hproj hst
    rw [hpid]
    dsimp only
    rw [getProject_updateInvoice, hproj]
    dsimp only
    rw [if_neg hst]
    dsimp only
    rw [getProject_updateInvoice, hproj]
  · intro hpid c hc hf
    rw [hpid]
    dsimp only
    rw [getClient_updateInvoice, hc]
    dsimp only
    constructor
    constructor
    · rw [getProject_updateInvoice]
      show getProject (createSimpleProject _ _).1 db.nextId cid = _
      unfold createSimpleProject getProject
      dsimp only
      rw [find?_append_of_none _ _ _ (by
        have := getProject_nextId_none (updateInvoice db iid cid
          { amountPaid := some (inv.amountPaid.getD 0 + q),
            status := some (if inv.amountPaid.getD 0 + q ≥ inv.total then ("paid" : String)
              else if inv.amountPaid.getD 0 + q > 0 then ("partially_paid" : String)
              else inv.status) }) cid (by rw [fresh_updateInvoice]; exact hf)
        simpa [getProject, updateInvoice] using this)]
      rw [List.find?_cons_of_pos _ (by simp [projectMatch, updateInvoice])]
    · refine ⟨rfl, rfl, ?_⟩
      rw [getInvoice_updateInvoice, getInvoice_createSimpleProject,
        getInvoice_updateInvoice, hinv]
      simp [applyInvoicePatch, createSimpleProject, updateInvoice]

/-- An invoice with no linked project, for the C4 witness. -/
def invC4w : Invoice :=
  { id := 1, contractorId := 1, clientId := 2, projectId := none,
    estimateId := none, invoiceNumber := "INV-4", issueDate := 0, dueDate := 15,
    status := "pending", subtotal := 100, tax := none, discount := none,
    total := 100, amountPaid := some 0, terms := none, notes := none,
    contractorSignature := none }

/-- Database for the C4 witness: one invoice, its client, no projects. -/
def dbC4w : DB :=
  { nextId := 10, clients := [{ id := 2, contractorId := 1, name := "Ada" }],
    projects := [], estimates := [], estimateItems := [], invoices := [invC4w],
    invoiceItems := [], events := [], agents := [] }

/-- Witness for C4: a 40-dollar payment on the project-less invoice. -/
theorem C4_payment_project_side_witness :
    getInvoice dbC4w 1 1 = some invC4w ∧
    truthyAmount (ReqAmount.jnum 40) = true ∧
    parseAmount? (ReqAmount.jnum 40) = some 40 ∧
    invC4w.amountPaid.getD 0 + 40 ≤ invC4w.total ∧
    0 < invC4w.amountPaid.getD 0 + 40 ∧
    ((∀ pid proj, invC4w.projectId = some pid → getProject dbC4w pid 1 = some proj →
      proj.status = "pending" →
        ∃ proj', getProject (recordPayment dbC4w 1 1 (ReqAmount.jnum 40) 0).2 pid 1 = some proj' ∧
          proj'.status = "in_progress") ∧
    (∀ pid proj, invC4w.projectId = some pid → getProject dbC4w pid 1 = some proj →
      proj.status ≠ "pending" →
        getProject (recordPayment dbC4w 1 1 (ReqAmount.jnum 40) 0).2 pid 1 = some proj) ∧
    (invC4w.projectId = none → ∀ c, getClient dbC4w invC4w.clientId 1 = some c →
      fresh dbC4w = true →
        ∃ proj', getProject (recordPayment dbC4w 1 1 (ReqAmount.jnum 40) 0).2 dbC4w.nextId 1 = some proj' ∧
          proj'.status = "pending" ∧ proj'.budget = some invC4w.total ∧
          (getInvoice (recordPayment dbC4w 1 1 (ReqAmount.jnum 40) 0).2 1 1).map Invoice.projectId
            = some (some dbC4w.nextId))) :=
  ⟨by simp [getInvoice, dbC4w, invC4w, invoiceMatch],
   by simp [truthyAmount],
   rfl,
   by simp [invC4w]; norm_num,
   by simp [invC4w],
   C4_payment_project_side dbC4w 1 1 0 (ReqAmount.jnum 40) invC4w 40
     (by simp [getInvoice, dbC4w, invC4w, invoiceMatch])
     (by simp [truthyAmount]) rfl
     (by simp [invC4w]; norm_num)
     (by simp [invC4w])⟩

/-! ### Project cancellation (C8) -/

/-- **C8**.  Cancelling an existing project that is not already
cancelled answers 200, sets the status to `cancelled`, replaces the
notes with the old notes plus the cancellation line (the request's
reason when truthy, the fixed line otherwise), and leaves every other
project field unchanged; cancelling an already-cancelled project answers
400 and changes nothing. -/
theorem C8_cancel_project
    (db : DB) (cid pid : ℤ) (reqNotes : Option String) (proj : Project)
    (hproj : getProject db pid cid = some proj) :
    (proj.status ≠ "cancelled" →
      (cancelProject db cid pid reqNotes).1 = 200 ∧
      ∃ proj', getProject (cancelProject db cid pid reqNotes).2 pid cid = some proj' ∧
        proj'.status = "cancelled" ∧
        proj'.notes = some (if jsStrTruthy reqNotes = true then
            appendNote proj.notes ("Cancelled: " ++ reqNotes.getD "")
          else appendNote proj.notes ("Project cancelled")) ∧
        proj'.id = proj.id ∧ proj'.contractorId = proj.contractorId ∧
        proj'.clientId = proj.clientId ∧ proj'.title = proj.title ∧
        proj'.description = proj.description ∧ proj'.budget = proj.budget ∧
        proj'.startDate = proj.startDate ∧ proj'.position = proj.position) ∧
    (proj.status = "cancelled" → cancelProject db cid pid reqNotes = (400, db)) := by
  unfold cancelProject
  rw [hproj]
  dsimp only
  constructor
  · intro hne
    rw [if_neg hne]
    refine ⟨rfl, ?_⟩
    rw [getProject_updateProject, hproj, Option.map_some']
    refine ⟨_, rfl, by simp [applyProjectPatch], ?_, by simp [applyProjectPatch],
      by simp [applyProjectPatch], by simp [applyProjectPatch], by simp [applyProjectPatch],
      by simp [applyProjectPatch], by simp [applyProjectPatch], by simp [applyProjectPatch],
      by simp [applyProjectPatch]⟩
    by_cases h : jsStrTruthy reqNotes = true
    · simp [applyProjectPatch, h]
    · simp only [Bool.not_eq_true] at h
      simp [applyProjectPatch, h]
  · intro heq
    rw [if_pos heq]

/-- An in-progress project with some notes, for the C8 witness. -/
def projC8w : Project :=
  { id := 3, contractorId := 1, clientId := some 2, title := "Deck",
    description := some "Build a deck", status := "in_progress",
    budget := some 5000, startDate := some 0, notes := some "old note",
    position := some 1 }

/-- A one-project database for the C8 witness. -/
def dbC8w : DB :=
  { nextId := 10, clients := [], projects := [projC8w], estimates := [],
    estimateItems := [], invoices := [], invoiceItems := [], events := [],
    agents := [] }

/-- Witness for C8: cancelling the in-progress project with a reason. -/
theorem C8_cancel_project_witness :
    getProject dbC8w 3 1 = some projC8w ∧
    ((projC8w.status ≠ "cancelled" →
      (cancelProject dbC8w 1 3 (some "rain")).1 = 200 ∧
      ∃ proj', getProject (cancelProject dbC8w 1 3 (some "rain")).2 3 1 = some proj' ∧
        proj'.status = "cancelled" ∧
        proj'.notes = some (if jsStrTruthy (some "rain") = true then
            appendNote projC8w.notes ("Cancelled: " ++ (some "rain").getD "")
          else appendNote projC8w.notes ("Project cancelled")) ∧
        proj'.id = projC8w.id ∧ proj'.contractorId = projC8w.contractorId ∧
        proj'.clientId = projC8w.clientId ∧ proj'.title = projC8w.title ∧
        proj'.description = projC8w.description ∧ proj'.budget = projC8w.budget ∧
        proj'.startDate = projC8w.startDate ∧ proj'.position = projC8w.position) ∧
    (projC8w.status = "cancelled" → cancelProject dbC8w 1 3 (some "rain") = (400, dbC8w))) :=
  ⟨by simp [getProject, dbC8w, projC8w, projectMatch],
   C8_cancel_project dbC8w 1 3 (some "rain") projC8w
     (by simp [getProject, dbC8w, projC8w, projectMatch])⟩

/-! ### Estimate accept/reject guards (C9) -/

/-- **C9**.  Through the accept and reject endpoints an estimate's
status never becomes `accepted` or `rejected` from a starting status
other than `draft` or `sent`: both endpoints answer 400 and leave the
database unchanged for every other starting status, and reject
additionally answers 400 (still unchanged) whenever the request's notes
field is falsy (absent or empty). -/
theorem C9_estimate_accept_reject_guards
    (db : DB) (cid eid : ℤ) (notesA notesR : Option String) (est : Estimate)
    (hest : getEstimate db eid cid = some est) :
    (est.status ≠ "draft" ∧ est.status ≠ "sent" →
      acceptEstimate db cid eid notesA = (400, db) ∧
      rejectEstimate db cid eid notesR = (400, db)) ∧
    (jsStrTruthy notesR = false → rejectEstimate db cid eid notesR = (400, db)) ∧
    (∀ est', getEstimate (acceptEstimate db cid eid notesA).2 eid cid = some est' →
      est'.status = "accepted" →
      est.status = "accepted" ∨ est.status = "draft" ∨ est.status = "sent") ∧
    (∀ est', getEstimate (rejectEstimate db cid eid notesR).2 eid cid = some est' →
      est'.status = "rejected" →
      est.status = "rejected" ∨ est.status = "draft" ∨ est.status = "sent") := by
  refine ⟨?_, ?_, ?_, ?_⟩
  · intro h
    constructor
    · unfold acceptEstimate
      rw [hest]
      dsimp only
      rw [if_pos h]
    · unfold rejectEstimate
      rw [hest]
      dsimp only
      rw [if_pos h]
  · intro hn
    unfold rejectEstimate
    rw [hest]
    dsimp only
    by_cases hok : est.status ≠ "draft" ∧ est.status ≠ "sent"
    · rw [if_pos hok]
    · rw [if_neg hok, if_pos hn]
  · intro est' hfind hst
    by_cases hok : est.status ≠ "draft" ∧ est.status ≠ "sent"
    · have hr : acceptEstimate db cid eid notesA = (400, db) := by
        unfold acceptEstimate
        rw [hest]
        dsimp only
        rw [if_pos hok]
      rw [hr] at hfind
      rw [hest] at hfind
      obtain rfl : est = est' := by injection hfind
      exact Or.inl hst
    · rcases not_and_or.mp hok with h | h <;> rw [not_not] at h
      · exact Or.inr (Or.inl h)
      · exact Or.inr (Or.inr h)
  · intro est' hfind hst
    by_cases hok : est.status ≠ "draft" ∧ est.status ≠ "sent"
    · have hr : rejectEstimate db cid eid notesR = (400, db) := by
        unfold rejectEstimate
        rw [hest]
        dsimp only
        rw [if_pos hok]
      rw [hr] at hfind
      rw [hest] at hfind
      obtain rfl : est = est' := by injection hfind
      exact Or.inl hst
    · rcases not_and_or.mp hok with h | h <;> rw [not_not] at h
      · exact Or.inr (Or.inl h)
      · exact Or.inr (Or.inr h)

/-- A converted estimate (neither draft nor sent), for the C9 witness. -/
def estC9w : Estimate :=
  { id := 7, contractorId := 1, clientId := 2, projectId := none,
    estimateNumber := "EST-9", status := "converted", subtotal := 100,
    tax := none, discount := none, total := 100, terms := none,
    notes := some "old", contractorSignature := none, agentId := none,
    appointmentDate := none, appointmentDuration := none, estimateType := none }

/-- A one-estimate database for the C9 witness. -/
def dbC9w : DB :=
  { nextId := 10, clients := [], projects := [], estimates := [estC9w],
    estimateItems := [], invoices := [], invoiceItems := [], events := [],
    agents := [] }

/-- Witness for C9: accept and reject on a converted estimate both
answer 400 and change nothing. -/
theorem C9_estimate_accept_reject_guards_witness :
    getEstimate dbC9w 7 1 = some estC9w ∧
    ((estC9w.status ≠ "draft" ∧ estC9w.status ≠ "sent" →
      acceptEstimate dbC9w 1 7 none = (400, dbC9w) ∧
      rejectEstimate dbC9w 1 7 none = (400, dbC9w)) ∧
    (jsStrTruthy none = false → rejectEstimate dbC9w 1 7 none = (400, dbC9w)) ∧
    (∀ est', getEstimate (acceptEstimate dbC9w 1 7 none).2 7 1 = some est' →
      est'.status = "accepted" →
      estC9w.status = "accepted" ∨ estC9w.status = "draft" ∨ estC9w.status = "sent") ∧
    (∀ est', getEstimate (rejectEstimate dbC9w 1 7 none).2 7 1 = some est' →
      est'.status = "rejected" →
      estC9w.status = "rejected" ∨ estC9w.status = "draft" ∨ estC9w.status = "sent")) :=
  ⟨by simp [getEstimate, dbC9w, estC9w, estimateMatch],
   C9_estimate_accept_reject_guards dbC9w 1 7 none none estC9w
     (by simp [getEstimate, dbC9w, estC9w, estimateMatch])⟩

/-! ### Estimate → invoice conversion (C2) -/

/-- Estimate writes do not change invoice reads. -/
theorem getInvoice_updateEstimate (db : DB) (eid ecid : ℤ) (p : EstimatePatch)
    (iid cid : ℤ) :
    getInvoice (updateEstimate db eid ecid p) iid cid = getInvoice db iid cid := rfl

/-- With a fresh id counter, no invoice row carries the id about to be
assigned. -/
theorem getInvoice_nextId_none (db : DB) (cid : ℤ) (hf : fresh db = true) :
    getInvoice db db.nextId cid = none := by
  unfold getInvoice
  rw [List.find?_eq_none]
  intro i hi
  simp only [invoiceMatch, decide_eq_true_eq, not_and]
  intro hid _
  simp only [fresh, Bool.and_eq_true, List.all_eq_true] at hf
  have := hf.1.1 i hi
  rw [hid] at this
  simp at this

/-- With a fresh id counter, no stored invoice item references the id
about to be assigned. -/
theorem getInvoiceItems_nextId_nil (db : DB) (hf : fresh db = true) :
    getInvoiceItems db db.nextId = [] := by
  unfold getInvoiceItems
  rw [List.filter_eq_nil_iff]
  intro it hit
  simp only [decide_eq_true_eq]
  simp only [fresh, Bool.and_eq_true, List.all_eq_true] at hf
  have := hf.2 it hit
  intro hid
  rw [hid] at this
  simp at this

/-- The conversion loop over estimate items appends one invoice item per
estimate item. -/
theorem foldl_conv_items (iid : ℤ) (items : List EstimateItem) :
    ∀ d : DB,
    items.foldl (fun d item => createInvoiceItem d
      { invoiceId := iid, description := item.description, quantity := item.quantity,
        unitPrice := item.unitPrice, amount := item.amount, notes := item.notes }) d
      = { d with invoiceItems := d.invoiceItems ++ items.map (fun item =>
          { invoiceId := iid, description := item.description, quantity := item.quantity,
            unitPrice := item.unitPrice, amount := item.amount, notes := item.notes }) } := by
  induction items with
  | nil =>
    intro d
    simp [createInvoiceItem]
  | cons a t ih =>
    intro d
    rw [List.foldl_cons, ih]
    simp [createInvoiceItem, List.append_assoc]

/-- **C2**.  Conversion succeeds only from status `accepted` (any other
status answers 400 with no change); on success it answers 201, creates
an invoice — status `pending`, `amountPaid` 0, subtotal/tax/discount/
total/terms/notes copied from the estimate, due date fifteen days after
the issue date — copies every estimate item's description, quantity,
unit price and amount to an invoice item of the new invoice, and sets
the estimate's status to `converted`. -/
theorem C2_convert_estimate_to_invoice
    (db : DB) (cid eid now : ℤ) (invNum : String) (est : Estimate)
    (hest : getEstimate db eid cid = some est)
    (hf : fresh db = true) :
    (est.status ≠ "accepted" → convertToInvoice db cid eid now invNum = (400, db)) ∧
    (est.status = "accepted" →
      (convertToInvoice db cid eid now invNum).1 = 201 ∧
      (∃ inv, getInvoice (convertToInvoice db cid eid now invNum).2 db.nextId cid = some inv ∧
        inv.status = "pending" ∧ inv.amountPaid = some 0 ∧
        inv.subtotal = est.subtotal ∧ inv.tax = est.tax ∧
        inv.discount = est.discount ∧ inv.total = est.total ∧
        inv.terms = est.terms ∧ inv.notes = est.notes ∧
        inv.issueDate = now ∧ inv.dueDate = inv.issueDate + 15) ∧
      (getInvoiceItems (convertToInvoice db cid eid now invNum).2 db.nextId).map
          (fun it => (it.description, it.quantity, it.unitPrice, it.amount))
        = (getEstimateItems db eid).map
          (fun it => (it.description, it.quantity, it.unitPrice, it.amount)) ∧
      (∃ est', getEstimate (convertToInvoice db cid eid now invNum).2 eid cid = some est' ∧
        est'.status = "converted")) := by
  unfold convertToInvoice
  rw [hest]
  dsimp only
  constructor
  · intro hne
    rw [if_pos hne]
  · intro hacc
    rw [if_neg (not_not_intro hacc)]
    dsimp only
    by_cases hlen : (getEstimateItems db eid).length > 0
    · rw [if_pos hlen, foldl_conv_items]
      simp only [createInvoice]
      refine ⟨trivial, ?_, ?_, ?_⟩
      · rw [getInvoice_updateEstimate]
        unfold getInvoice
        dsimp only
        have hnone : db.invoices.find? (invoiceMatch db.nextId cid) = none := by
          have h := getInvoice_nextId_none db cid hf
          unfold getInvoice at h
          exact h
        rw [find?_append_of_none _ _ _ hnone,
          List.find?_cons_of_pos _ (by simp [invoiceMatch])]
        exact ⟨_, rfl, rfl, rfl, rfl, rfl, rfl, rfl, rfl, rfl, rfl, rfl⟩
      · unfold getInvoiceItems updateEstimate
        dsimp only
        rw [List.filter_append]
        have hnil : db.invoiceItems.filter (fun it => decide (it.invoiceId = db.nextId)) = [] := by
          have h := getInvoiceItems_nextId_nil db hf
          unfold getInvoiceItems at h
          exact h
        rw [hnil, List.nil_append,
          List.filter_eq_self.mpr (by
            intro a ha
            obtain ⟨x, hx, rfl⟩ := List.mem_map.mp ha
            simp),
          List.map_map]
        rfl
      · rw [getEstimate_updateEstimate]
        have hest' : db.estimates.find? (estimateMatch eid cid) = some est := by
          have h := hest
          unfold getEstimate at h
          exact h
        unfold getEstimate
        dsimp only
        rw [hest', Option.map_some']
        exact ⟨_, rfl, by simp [applyEstimatePatch]⟩
    · rw [if_neg hlen]
      have hnilitems : getEstimateItems db eid = [] := by
        rcases h : getEstimateItems db eid with _ | ⟨a, t⟩
        · rfl
        · exact absurd (h ▸ (by simp : (a :: t).length > 0)) hlen
      simp only [createInvoice]
      refine ⟨trivial, ?_, ?_, ?_⟩
      · rw [getInvoice_updateEstimate]
        unfold getInvoice
        dsimp only
        have hnone : db.invoices.find? (invoiceMatch db.nextId cid) = none := by
          have h := getInvoice_nextId_none db cid hf
          unfold getInvoice at h
          exact h
        rw [find?_append_of_none _ _ _ hnone,
          List.find?_cons_of_pos _ (by simp [invoiceMatch])]
        exact ⟨_, rfl, rfl, rfl, rfl, rfl, rfl, rfl, rfl, rfl, rfl, rfl⟩
      · unfold getInvoiceItems updateEstimate
        dsimp only
        have hnil : db.invoiceItems.filter (fun it => decide (it.invoiceId = db.nextId)) = [] := by
          have h := getInvoiceItems_nextId_nil db hf
          unfold getInvoiceItems at h
          exact h
        rw [hnil, hnilitems]
        rfl
      · rw [getEstimate_updateEstimate]
        have hest' : db.estimates.find? (estimateMatch eid cid) = some est := by
          have h := hest
          unfold getEstimate at h
          exact h
        unfold getEstimate
        dsimp only
        rw [hest', Option.map_some']
        exact ⟨_, rfl, by simp [applyEstimatePatch]⟩



/-- An accepted estimate, for the C2 witness. -/
def estC2w : Estimate :=
  { id := 7, contractorId := 1, clientId := 2, projectId := some 3,
    estimateNumber := "EST-2", status := "accepted", subtotal := 90,
    tax := some 10, discount := none, total := 100, terms := some "net 15",
    notes := some "scope agreed", contractorSignature := none, agentId := none,
    appointmentDate := none, appointmentDuration := none, estimateType := none }

/-- The single line item of the C2 witness estimate. -/
def itemC2w : EstimateItem :=
  { estimateId := 7, description := "Paint walls", quantity := 2,
    unitPrice := 45, amount := 90, notes := none }

/-- Database for the C2 witness. -/
def dbC2w : DB :=
  { nextId := 10, clients := [], projects := [], estimates := [estC2w],
    estimateItems := [itemC2w], invoices := [], invoiceItems := [],
    events := [], agents := [] }

/-- Witness for C2: converting the accepted one-item estimate. -/
theorem C2_convert_estimate_to_invoice_witness :
    getEstimate dbC2w 7 1 = some estC2w ∧
    fresh dbC2w = true ∧
    ((estC2w.status ≠ "accepted" → convertToInvoice dbC2w 1 7 0 "OT-1" = (400, dbC2w)) ∧
    (estC2w.status = "accepted" →
      (convertToInvoice dbC2w 1 7 0 "OT-1").1 = 201 ∧
      (∃ inv, getInvoice (convertToInvoice dbC2w 1 7 0 "OT-1").2 dbC2w.nextId 1 = some inv ∧
        inv.status = "pending" ∧ inv.amountPaid = some 0 ∧
        inv.subtotal = estC2w.subtotal ∧ inv.tax = estC2w.tax ∧
        inv.discount = estC2w.discount ∧ inv.total = estC2w.total ∧
        inv.terms = estC2w.terms ∧ inv.notes = estC2w.notes ∧
        inv.issueDate = 0 ∧ inv.dueDate = inv.issueDate + 15) ∧
      (getInvoiceItems (convertToInvoice dbC2w 1 7 0 "OT-1").2 dbC2w.nextId).map
          (fun it => (it.description, it.quantity, it.unitPrice, it.amount))
        = (getEstimateItems dbC2w 7).map
          (fun it => (it.description, it.quantity, it.unitPrice, it.amount)) ∧
      (∃ est', getEstimate (convertToInvoice dbC2w 1 7 0 "OT-1").2 7 1 = some est' ∧
        est'.status = "converted"))) :=
  ⟨by simp [getEstimate, dbC2w, estC2w, estimateMatch],
   by simp [fresh, dbC2w, itemC2w],
   C2_convert_estimate_to_invoice dbC2w 1 7 0 "OT-1" estC2w
     (by simp [getEstimate, dbC2w, estC2w, estimateMatch])
     (by simp [fresh, dbC2w, itemC2w])⟩

/-! ### Agent scheduling: conflict check and calendar event (C3, C10) -/

/-- Generalization of `find?_update` to an update whose selector is
implied by the read selector (the drizzle id-only update read back by a
contractor-scoped `find?`). -/
theorem find?_update_sub {α : Type} (q p : α → Bool) (f : α → α)
    (hf : ∀ a, q (f a) = q a)
    (himp : ∀ a, q a = true → p a = true) :
    ∀ l : List α, (l.map fun a => if p a then f a else a).find? q = (l.find? q).map f := by
  intro l
  induction l with
  | nil => rfl
  | cons a t ih =>
    by_cases hq : q a = true
    · rw [List.map_cons, if_pos (himp a hq), List.find?_cons_of_pos _ ((hf a).trans hq),
        List.find?_cons_of_pos _ hq, Option.map_some']
    · by_cases hp : p a = true
      · rw [List.map_cons, if_pos hp,
          List.find?_cons_of_neg _ (by rw [hf]; exact hq),
          List.find?_cons_of_neg _ hq, ih]
      · rw [List.map_cons, if_neg hp, List.find?_cons_of_neg _ hq,
          List.find?_cons_of_neg _ hq, ih]

/-- Reading back, scoped by contractor, the estimate the drizzle update
patched by id alone. -/
theorem getEstimate_updateEstimateById (db : DB) (id cid : ℤ) (p : EstimatePatch) :
    getEstimate (updateEstimateById db id p) id cid
      = (getEstimate db id cid).map (applyEstimatePatch p) := by
  unfold getEstimate updateEstimateById
  exact find?_update_sub _ _ _ (estimateMatch_applyEstimatePatch id cid p)
    (fun a ha => by
      simp only [estimateMatch, decide_eq_true_eq] at ha
      simp [ha.1]) db.estimates

/-- Event writes do not change estimate reads. -/
theorem getEstimate_createEvent (db : DB) (ev : EventRow) (id cid : ℤ) :
    getEstimate (createEvent db ev) id cid = getEstimate db id cid := rfl

/-- The scheduling-conflict test of the assign-estimate handler, as an
existential over the estimate table. -/
theorem assign_conflict_iff (db : DB) (cid estId agId apptDate : ℤ) (dur : Option ℤ) :
    ((db.estimates.filter fun e =>
        decide (e.agentId = some agId ∧ e.contractorId = cid ∧
          e.id ≠ estId ∧ e.appointmentDate ≠ none)).any fun existing =>
      match existing.appointmentDate with
      | none => false
      | some existingStart =>
        decide (apptDate < existingStart + jsOr60 existing.appointmentDuration * 60000 ∧
          apptDate + jsOr60 dur * 60000 > existingStart)) = true ↔
    ∃ e ∈ db.estimates, e.agentId = some agId ∧ e.contractorId = cid ∧
      e.id ≠ estId ∧ ∃ s, e.appointmentDate = some s ∧
        apptDate < s + jsOr60 e.appointmentDuration * 60000 ∧
        apptDate + jsOr60 dur * 60000 > s := by
  rw [List.any_eq_true]
  constructor
  · rintro ⟨e, he, hov⟩
    obtain ⟨he1, he2⟩ := List.mem_filter.mp he
    rw [decide_eq_true_eq] at he2
    obtain ⟨h1, h2, h3, h4⟩ := he2
    rcases hdate : e.appointmentDate with _ | s
    · exact absurd hdate h4
    · rw [hdate] at hov
      rw [decide_eq_true_eq] at hov
      exact ⟨e, he1, h1, h2, h3, s, hdate, hov.1, hov.2⟩
  · rintro ⟨e, he, h1, h2, h3, s, hs, hov1, hov2⟩
    refine ⟨e, List.mem_filter.mpr ⟨he, by simp [h1, h2, h3, hs]⟩, ?_⟩
    rw [hs]
    exact decide_eq_true ⟨hov1, hov2⟩



/-- **C3**.  Assigning an estimate to an agent answers 409 and leaves
the database unchanged exactly when some other estimate (different id)
of the same agent and contractor with a non-null appointment date
overlaps the requested slot, where a slot is `[start, start + d * 60000)`
milliseconds and `d` is the duration with the source's `|| 60` default
(absent — and, as JavaScript `||` also maps falsy values, an explicit
0 — becomes 60); overlap is `newStart < existingEnd ∧ newEnd >
existingStart`, so back-to-back appointments do not conflict.  Without a
conflict it answers 200 and sets the estimate's `agentId`,
`appointmentDate`, `appointmentDuration` and `estimateType = "agent"`. -/
theorem C3_assign_estimate_scheduling
    (db : DB) (cid estId agId apptDate : ℤ) (dur : Option ℤ) (evFail : Bool)
    (est : Estimate) (ag : Agent)
    (hest : getEstimate db estId cid = some est)
    (hag : getAgent db agId cid = some ag) :
    ((assignEstimate db cid estId agId apptDate dur evFail).status = 409 ↔
      ∃ e ∈ db.estimates, e.agentId = some agId ∧ e.contractorId = cid ∧
        e.id ≠ estId ∧ ∃ s, e.appointmentDate = some s ∧
          apptDate < s + jsOr60 e.appointmentDuration * 60000 ∧
          apptDate + jsOr60 dur * 60000 > s) ∧
    ((assignEstimate db cid estId agId apptDate dur evFail).status = 409 →
      (assignEstimate db cid estId agId apptDate dur evFail).db = db) ∧
    ((assignEstimate db cid estId agId apptDate dur evFail).status ≠ 409 →
      (assignEstimate db cid estId agId apptDate dur evFail).status = 200 ∧
      ∃ e', getEstimate (assignEstimate db cid estId agId apptDate dur evFail).db estId cid
          = some e' ∧
        e'.agentId = some agId ∧ e'.appointmentDate = some apptDate ∧
        e'.appointmentDuration = some (jsOr60 dur) ∧ e'.estimateType = some ("agent")) := by
  unfold assignEstimate
  rw [hest, hag]
  dsimp only
  by_cases hconf : ((db.estimates.filter fun e =>
      decide (e.agentId = some agId ∧ e.contractorId = cid ∧
        e.id ≠ estId ∧ e.appointmentDate ≠ none)).any fun existing =>
    match existing.appointmentDate with
    | none => false
    | some existingStart =>
      decide (apptDate < existingStart + jsOr60 existing.appointmentDuration * 60000 ∧
        apptDate + jsOr60 dur * 60000 > existingStart)) = true
  · rw [if_pos hconf]
    refine ⟨iff_of_true rfl ((assign_conflict_iff db cid estId agId apptDate dur).mp hconf),
      fun _ => rfl, fun h => absurd rfl h⟩
  · rw [if_neg hconf]
    refine ⟨?_, ?_, ?_⟩
    · refine iff_of_false (by norm_num) ?_
      intro hex
      exact hconf ((assign_conflict_iff db cid estId agId apptDate dur).mpr hex)
    · intro h
      exact absurd h (by norm_num)
    · intro _
      refine ⟨rfl, ?_⟩
      by_cases hev : evFail = true
      · rw [if_pos hev]
        rw [getEstimate_updateEstimateById, hest, Option.map_some']
        exact ⟨_, rfl, by simp [applyEstimatePatch], by simp [applyEstimatePatch],
          by simp [applyEstimatePatch], by simp [applyEstimatePatch]⟩
      · rw [if_neg hev]
        rw [getEstimate_createEvent, getEstimate_updateEstimateById, hest, Option.map_some']
        exact ⟨_, rfl, by simp [applyEstimatePatch], by simp [applyEstimatePatch],
          by simp [applyEstimatePatch], by simp [applyEstimatePatch]⟩



/-- A successful `find?` for a stronger selector gives a successful
`find?` for a weaker one. -/
theorem find?_isSome_of_weaker {α : Type} (q p : α → Bool)
    (himp : ∀ a, q a = true → p a = true) :
    ∀ (l : List α) (a : α), l.find? q = some a → ∃ b, l.find? p = some b := by
  intro l
  induction l with
  | nil => intro a h; simp at h
  | cons x t ih =>
    intro a h
    by_cases hp : p x = true
    · exact ⟨x, List.find?_cons_of_pos _ hp⟩
    · have hq : ¬ q x = true := fun hq => hp (himp x hq)
      rw [List.find?_cons_of_neg _ hq] at h
      obtain ⟨b, hb⟩ := ih a h
      exact ⟨b, by rw [List.find?_cons_of_neg _ hp]; exact hb⟩

/-- **C10**.  A successful assignment also inserts a confirmed calendar
event of type `estimate` covering the appointment interval, but a
failure while inserting that event is swallowed: the estimate update
persists identically, the events table is untouched, and the response
is still 200 with the updated estimate. -/
theorem C10_assign_event_insert_isolated
    (db : DB) (cid estId agId apptDate : ℤ) (dur : Option ℤ)
    (est : Estimate) (ag : Agent)
    (hest : getEstimate db estId cid = some est)
    (hag : getAgent db agId cid = some ag)
    (hnc : ¬ ∃ e ∈ db.estimates, e.agentId = some agId ∧ e.contractorId = cid ∧
      e.id ≠ estId ∧ ∃ s, e.appointmentDate = some s ∧
        apptDate < s + jsOr60 e.appointmentDuration * 60000 ∧
        apptDate + jsOr60 dur * 60000 > s) :
    (assignEstimate db cid estId agId apptDate dur false).status = 200 ∧
    (assignEstimate db cid estId agId apptDate dur true).status = 200 ∧
    (∃ ev ∈ (assignEstimate db cid estId agId apptDate dur false).db.events,
      ev.startTime = apptDate ∧ ev.endTime = apptDate + jsOr60 dur * 60000 ∧
      ev.status = "confirmed" ∧ ev.type = "estimate" ∧ ev.contractorId = cid) ∧
    (assignEstimate db cid estId agId apptDate dur true).db.events = db.events ∧
    (assignEstimate db cid estId agId apptDate dur true).db.estimates
      = (assignEstimate db cid estId agId apptDate dur false).db.estimates ∧
    (∃ e', getEstimate (assignEstimate db cid estId agId apptDate dur true).db estId cid
        = some e' ∧
      e'.agentId = some agId ∧ e'.appointmentDate = some apptDate ∧
      e'.appointmentDuration = some (jsOr60 dur) ∧ e'.estimateType = some ("agent")) ∧
    (assignEstimate db cid estId agId apptDate dur true).body
      = (assignEstimate db cid estId agId apptDate dur false).body ∧
    (∃ e', (assignEstimate db cid estId agId apptDate dur true).body = some e' ∧
      e'.agentId = some agId ∧ e'.appointmentDate = some apptDate ∧
      e'.appointmentDuration = some (jsOr60 dur) ∧ e'.estimateType = some ("agent")) := by
  have hconf : ¬ ((db.estimates.filter fun e =>
      decide (e.agentId = some agId ∧ e.contractorId = cid ∧
        e.id ≠ estId ∧ e.appointmentDate ≠ none)).any fun existing =>
    match existing.appointmentDate with
    | none => false
    | some existingStart =>
      decide (apptDate < existingStart + jsOr60 existing.appointmentDuration * 60000 ∧
        apptDate + jsOr60 dur * 60000 > existingStart)) = true := by
    intro h
    exact hnc ((assign_conflict_iff db cid estId agId apptDate dur).mp h)
  unfold assignEstimate
  rw [hest, hag]
  dsimp only
  rw [if_neg hconf, if_neg hconf]
  rw [if_neg (by norm_num : ¬ (false = true)), if_pos (rfl : true = true)]
  refine ⟨rfl, rfl, ?_, rfl, rfl, ?_, rfl, ?_⟩
  · refine ⟨_, List.mem_append_right _ (List.mem_singleton.mpr rfl), rfl, rfl, rfl, rfl, rfl⟩
  · rw [getEstimate_updateEstimateById, hest, Option.map_some']
    exact ⟨_, rfl, by simp [applyEstimatePatch], by simp [applyEstimatePatch],
      by simp [applyEstimatePatch], by simp [applyEstimatePatch]⟩
  · obtain ⟨b, hb⟩ := find?_isSome_of_weaker (estimateMatch estId cid)
      (fun e => decide (e.id = estId))
      (fun a ha => by
        simp only [estimateMatch, decide_eq_true_eq] at ha
        simp [ha.1]) db.estimates est hest
    unfold updateEstimateById
    dsimp only
    rw [find?_update _ _ (by simp [applyEstimatePatch]), hb, Option.map_some']
    exact ⟨_, rfl, by simp [applyEstimatePatch], by simp [applyEstimatePatch],
      by simp [applyEstimatePatch], by simp [applyEstimatePatch]⟩



/-- An unassigned estimate, for the C3 witness. -/
def estC3w : Estimate :=
  { id := 7, contractorId := 1, clientId := 2, projectId := none,
    estimateNumber := "EST-3", status := "sent", subtotal := 100,
    tax := none, discount := none, total := 100, terms := none,
    notes := none, contractorSignature := none, agentId := none,
    appointmentDate := none, appointmentDuration := none, estimateType := none }

/-- The agent of the C3 witness. -/
def agC3w : Agent :=
  { id := 4, contractorId := 1, firstName := "Al", lastName := "Smith" }

/-- Database for the C3 witness: one estimate, one agent, no
appointments yet. -/
def dbC3w : DB :=
  { nextId := 10, clients := [], projects := [], estimates := [estC3w],
    estimateItems := [], invoices := [], invoiceItems := [], events := [],
    agents := [agC3w] }

/-- Witness for C3: a conflict-free assignment at minute 60. -/
theorem C3_assign_estimate_scheduling_witness :
    getEstimate dbC3w 7 1 = some estC3w ∧
    getAgent dbC3w 4 1 = some agC3w ∧
    (((assignEstimate dbC3w 1 7 4 3600000 (some 90) false).status = 409 ↔
      ∃ e ∈ dbC3w.estimates, e.agentId = some 4 ∧ e.contractorId = 1 ∧
        e.id ≠ 7 ∧ ∃ s, e.appointmentDate = some s ∧
          3600000 < s + jsOr60 e.appointmentDuration * 60000 ∧
          3600000 + jsOr60 (some 90) * 60000 > s) ∧
    ((assignEstimate dbC3w 1 7 4 3600000 (some 90) false).status = 409 →
      (assignEstimate dbC3w 1 7 4 3600000 (some 90) false).db = dbC3w) ∧
    ((assignEstimate dbC3w 1 7 4 3600000 (some 90) false).status ≠ 409 →
      (assignEstimate dbC3w 1 7 4 3600000 (some 90) false).status = 200 ∧
      ∃ e', getEstimate (assignEstimate dbC3w 1 7 4 3600000 (some 90) false).db 7 1
          = some e' ∧
        e'.agentId = some 4 ∧ e'.appointmentDate = some 3600000 ∧
        e'.appointmentDuration = some (jsOr60 (some 90)) ∧
        e'.estimateType = some ("agent"))) :=
  ⟨by simp [getEstimate, dbC3w, estC3w, estimateMatch],
   by simp [getAgent, dbC3w, agC3w, agentMatch],
   C3_assign_estimate_scheduling dbC3w 1 7 4 3600000 (some 90) false estC3w agC3w
     (by simp [getEstimate, dbC3w, estC3w, estimateMatch])
     (by simp [getAgent, dbC3w, agC3w, agentMatch])⟩

/-- An unassigned estimate, for the C10 witness. -/
def estC10w : Estimate :=
  { id := 7, contractorId := 1, clientId := 2, projectId := none,
    estimateNumber := "EST-10", status := "sent", subtotal := 100,
    tax := none, discount := none, total := 100, terms := none,
    notes := none, contractorSignature := none, agentId := none,
    appointmentDate := none, appointmentDuration := none, estimateType := none }

/-- The agent of the C10 witness. -/
def agC10w : Agent :=
  { id := 4, contractorId := 1, firstName := "Bo", lastName := "Jones" }

/-- Database for the C10 witness. -/
def dbC10w : DB :=
  { nextId := 10, clients := [], projects := [], estimates := [estC10w],
    estimateItems := [], invoices := [], invoiceItems := [], events := [],
    agents := [agC10w] }

/-- Witness for C10: the same assignment with and without the event
insertion failing. -/
theorem C10_assign_event_insert_isolated_witness :
    getEstimate dbC10w 7 1 = some estC10w ∧
    getAgent dbC10w 4 1 = some agC10w ∧
    (¬ ∃ e ∈ dbC10w.estimates, e.agentId = some 4 ∧ e.contractorId = 1 ∧
      e.id ≠ 7 ∧ ∃ s, e.appointmentDate = some s ∧
        3600000 < s + jsOr60 e.appointmentDuration * 60000 ∧
        3600000 + jsOr60 (some 90) * 60000 > s) ∧
    ((assignEstimate dbC10w 1 7 4 3600000 (some 90) false).status = 200 ∧
    (assignEstimate dbC10w 1 7 4 3600000 (some 90) true).status = 200 ∧
    (∃ ev ∈ (assignEstimate dbC10w 1 7 4 3600000 (some 90) false).db.events,
      ev.startTime = 3600000 ∧ ev.endTime = 3600000 + jsOr60 (some 90) * 60000 ∧
      ev.status = "confirmed" ∧ ev.type = "estimate" ∧ ev.contractorId = 1) ∧
    (assignEstimate dbC10w 1 7 4 3600000 (some 90) true).db.events = dbC10w.events ∧
    (assignEstimate dbC10w 1 7 4 3600000 (some 90) true).db.estimates
      = (assignEstimate dbC10w 1 7 4 3600000 (some 90) false).db.estimates ∧
    (∃ e', getEstimate (assignEstimate dbC10w 1 7 4 3600000 (some 90) true).db 7 1
        = some e' ∧
      e'.agentId = some 4 ∧ e'.appointmentDate = some 3600000 ∧
      e'.appointmentDuration = some (jsOr60 (some 90)) ∧ e'.estimateType = some ("agent")) ∧
    (assignEstimate dbC10w 1 7 4 3600000 (some 90) true).body
      = (assignEstimate dbC10w 1 7 4 3600000 (some 90) false).body ∧
    (∃ e', (assignEstimate dbC10w 1 7 4 3600000 (some 90) true).body = some e' ∧
      e'.agentId = some 4 ∧ e'.appointmentDate = some 3600000 ∧
      e'.appointmentDuration = some (jsOr60 (some 90)) ∧ e'.estimateType = some ("agent"))) :=
  ⟨by simp [getEstimate, dbC10w, estC10w, estimateMatch],
   by simp [getAgent, dbC10w, agC10w, agentMatch],
   by simp [dbC10w, estC10w],
   C10_assign_event_insert_isolated dbC10w 1 7 4 3600000 (some 90) estC10w agC10w
     (by simp [getEstimate, dbC10w, estC10w, estimateMatch])
     (by simp [getAgent, dbC10w, agC10w, agentMatch])
     (by simp [dbC10w, estC10w])⟩

/-! ### Error surfacing and cross-tenant isolation (C6, C7) -/

/-- **C7**.  A request body the insert schema rejects is answered with
400 carrying the Zod error details and creates no client; fetching a
missing resource answers 404; a non-Zod error out of the storage layer
is answered with 500 and changes nothing; and a valid body is answered
with 201 after the client row is appended. -/
theorem C7_error_surfaces
    (db : DB) (cid missingId : ℤ) (parsed : ParseOutcome Client) (createFails : Bool)
    (hmiss : getClient db missingId cid = none) :
    (∀ errs, parsed = ParseOutcome.zodError errs →
      createClientRoute db parsed createFails = ⟨400, db, some errs⟩) ∧
    getClientRoute db cid missingId = (404, none) ∧
    (∀ data, parsed = ParseOutcome.ok data → createFails = true →
      createClientRoute db parsed createFails = ⟨500, db, none⟩) ∧
    (∀ data, parsed = ParseOutcome.ok data → createFails = false →
      (createClientRoute db parsed createFails).status = 201 ∧
      (createClientRoute db parsed createFails).db.clients
        = db.clients ++ [{ data with id := db.nextId }]) := by
  refine ⟨?_, ?_, ?_, ?_⟩
  · rintro errs rfl
    rfl
  · unfold getClientRoute
    rw [hmiss]
  · rintro data rfl rfl
    rfl
  · rintro data rfl rfl
    exact ⟨rfl, rfl⟩

/-- Database for the C7 witness. -/
def dbC7w : DB :=
  { nextId := 10, clients := [{ id := 2, contractorId := 1, name := "Ada" }],
    projects := [], estimates := [], estimateItems := [], invoices := [],
    invoiceItems := [], events := [], agents := [] }

/-- Witness for C7: a Zod-rejected payload and a missing client id. -/
theorem C7_error_surfaces_witness :
    getClient dbC7w 99 1 = none ∧
    ((∀ errs, (ParseOutcome.zodError ["Required"] : ParseOutcome Client) = ParseOutcome.zodError errs →
      createClientRoute dbC7w (ParseOutcome.zodError ["Required"]) false = ⟨400, dbC7w, some errs⟩) ∧
    getClientRoute dbC7w 1 99 = (404, none) ∧
    (∀ data, (ParseOutcome.zodError ["Required"] : ParseOutcome Client) = ParseOutcome.ok data → false = true →
      createClientRoute dbC7w (ParseOutcome.zodError ["Required"]) false = ⟨500, dbC7w, none⟩) ∧
    (∀ data, (ParseOutcome.zodError ["Required"] : ParseOutcome Client) = ParseOutcome.ok data → false = false →
      (createClientRoute dbC7w (ParseOutcome.zodError ["Required"]) false).status = 201 ∧
      (createClientRoute dbC7w (ParseOutcome.zodError ["Required"]) false).db.clients
        = dbC7w.clients ++ [{ data with id := dbC7w.nextId }])) :=
  ⟨by simp [getClient, dbC7w, clientMatch],
   C7_error_surfaces dbC7w 1 99 (ParseOutcome.zodError ["Required"]) false
     (by simp [getClient, dbC7w, clientMatch])⟩



/-- **C6**.  For the protected operations embedded here (fetching a
client, cancelling a project, accepting/rejecting/converting an
estimate, recording an invoice payment, assigning an estimate), a
resource id whose rows all belong to other contractors behaves exactly
like a missing id: 404 and no database effect — so the response is
independent of the other contractor's data.  The payment route first
validates the amount, hence the validity hypotheses on its conjunct. -/
theorem C6_cross_tenant_isolation
    (db : DB) (cid clientId estId invId projId agId now apptDate : ℤ)
    (reqNotesP reqNotesA reqNotesR : Option String) (amount : ReqAmount)
    (invNum : String) (dur : Option ℤ) (evFail : Bool)
    (hc : ∀ c ∈ db.clients, c.id = clientId → c.contractorId ≠ cid)
    (he : ∀ e ∈ db.estimates, e.id = estId → e.contractorId ≠ cid)
    (hi : ∀ i ∈ db.invoices, i.id = invId → i.contractorId ≠ cid)
    (hp : ∀ p ∈ db.projects, p.id = projId → p.contractorId ≠ cid) :
    getClientRoute db cid clientId = (404, none) ∧
    cancelProject db cid projId reqNotesP = (404, db) ∧
    acceptEstimate db cid estId reqNotesA = (404, db) ∧
    rejectEstimate db cid estId reqNotesR = (404, db) ∧
    convertToInvoice db cid estId now invNum = (404, db) ∧
    (truthyAmount amount = true → parseAmount? amount ≠ none →
      recordPayment db cid invId amount now = (404, db)) ∧
    (assignEstimate db cid estId agId apptDate dur evFail).status = 404 ∧
    (assignEstimate db cid estId agId apptDate dur evFail).db = db := by
  have hgc : getClient db clientId cid = none := by
    unfold getClient
    rw [List.find?_eq_none]
    intro c hcm
    simp only [clientMatch, decide_eq_true_eq, not_and]
    intro h1 h2
    exact hc c hcm h1 h2
  have hge : getEstimate db estId cid = none := by
    unfold getEstimate
    rw [List.find?_eq_none]
    intro e hem
    simp only [estimateMatch, decide_eq_true_eq, not_and]
    intro h1 h2
    exact he e hem h1 h2
  have hgi : getInvoice db invId cid = none := by
    unfold getInvoice
    rw [List.find?_eq_none]
    intro i him
    simp only [invoiceMatch, decide_eq_true_eq, not_and]
    intro h1 h2
    exact hi i him h1 h2
  have hgp : getProject db projId cid = none := by
    unfold getProject
    rw [List.find?_eq_none]
    intro p hpm
    simp only [projectMatch, decide_eq_true_eq, not_and]
    intro h1 h2
    exact hp p hpm h1 h2
  refine ⟨?_, ?_, ?_, ?_, ?_, ?_, ?_, ?_⟩
  · unfold getClientRoute
    rw [hgc]
  · unfold cancelProject
    rw [hgp]
  · unfold acceptEstimate
    rw [hge]
  · unfold rejectEstimate
    rw [hge]
  · unfold convertToInvoice
    rw [hge]
  · intro ht hpn
    unfold recordPayment
    rw [if_neg (by simp [ht, hpn]), hgi]
  · unfold assignEstimate
    rw [hge]
  · unfold assignEstimate
    rw [hge]

/-- Contractor 2's client. -/
def clC6w : Client := { id := 2, contractorId := 2, name := "Eve" }

/-- Contractor 2's project. -/
def projC6w : Project :=
  { id := 3, contractorId := 2, clientId := some 2, title := "Roof",
    description := none, status := "pending", budget := none,
    startDate := none, notes := none, position := none }

/-- Contractor 2's estimate. -/
def estC6w : Estimate :=
  { id := 7, contractorId := 2, clientId := 2, projectId := none,
    estimateNumber := "EST-6", status := "sent", subtotal := 10, tax := none,
    discount := none, total := 10, terms := none, notes := none,
    contractorSignature := none, agentId := none, appointmentDate := none,
    appointmentDuration := none, estimateType := none }

/-- Contractor 2's invoice. -/
def invC6w : Invoice :=
  { id := 5, contractorId := 2, clientId := 2, projectId := none,
    estimateId := none, invoiceNumber := "INV-6", issueDate := 0, dueDate := 15,
    status := "pending", subtotal := 10, tax := none, discount := none,
    total := 10, amountPaid := some 0, terms := none, notes := none,
    contractorSignature := none }

/-- Database for the C6 witness: every row owned by contractor 2. -/
def dbC6w : DB :=
  { nextId := 10, clients := [clC6w], projects := [projC6w],
    estimates := [estC6w], estimateItems := [], invoices := [invC6w],
    invoiceItems := [], events := [], agents := [] }

/-- Witness for C6: every resource in the database belongs to
contractor 2, and contractor 1 gets 404s with no change. -/
theorem C6_cross_tenant_isolation_witness :
    (∀ c ∈ dbC6w.clients, c.id = 2 → c.contractorId ≠ 1) ∧
    (∀ e ∈ dbC6w.estimates, e.id = 7 → e.contractorId ≠ 1) ∧
    (∀ i ∈ dbC6w.invoices, i.id = 5 → i.contractorId ≠ 1) ∧
    (∀ p ∈ dbC6w.projects, p.id = 3 → p.contractorId ≠ 1) ∧
    (getClientRoute dbC6w 1 2 = (404, none) ∧
    cancelProject dbC6w 1 3 none = (404, dbC6w) ∧
    acceptEstimate dbC6w 1 7 none = (404, dbC6w) ∧
    rejectEstimate dbC6w 1 7 (some "no") = (404, dbC6w) ∧
    convertToInvoice dbC6w 1 7 0 "OT-9" = (404, dbC6w) ∧
    (truthyAmount (ReqAmount.jstr 5) = true → parseAmount? (ReqAmount.jstr 5) ≠ none →
      recordPayment dbC6w 1 5 (ReqAmount.jstr 5) 0 = (404, dbC6w)) ∧
    (assignEstimate dbC6w 1 7 4 0 none false).status = 404 ∧
    (assignEstimate dbC6w 1 7 4 0 none false).db = dbC6w) :=
  ⟨by simp [dbC6w, clC6w],
   by simp [dbC6w, estC6w],
   by simp [dbC6w, invC6w],
   by simp [dbC6w, projC6w],
   C6_cross_tenant_isolation dbC6w 1 2 7 5 3 4 0 0 none none (some "no")
     (ReqAmount.jstr 5) "OT-9" none false
     (by simp [dbC6w, clC6w]) (by simp [dbC6w, estC6w])
     (by simp [dbC6w, invC6w]) (by simp [dbC6w, projC6w])⟩

end Remodra
